import Mathlib

/-!
Shallow embedding of `src/webserver.c`: the request parser, response
builder, path matcher, route registry, middleware chain and dispatcher.
C strings are modelled as NUL-free lists of characters; fixed-capacity
buffers appear as explicit `List.take` truncations at capacity minus one
(the byte kept for the terminating NUL by `strncpy`).  Handlers and
middleware mutate their `HttpResponse*` argument in place; here they are
functions returning the updated response.
-/

set_option linter.unusedVariables false
set_option maxRecDepth 100000

namespace CWeb

/-- A C string: the bytes before the terminating NUL. -/
abbrev CStr := List Char

/-- The C enum `HttpMethod`. -/
inductive HttpMethod where
  | GET
  | POST
  | PUT
  | DELETE
  | UNSUPPORTED
  deriving DecidableEq

/-- The C struct `HttpRequest` (capacities: path 256, query 512, body 2048, headers 1024). -/
structure HttpRequest where
  method : HttpMethod
  path : CStr
  query_string : CStr
  body : CStr
  body_length : Nat
  headers : CStr

/-- The C struct `HttpResponse` (capacities: content_type 64, body 4096). -/
structure HttpResponse where
  status_code : Nat
  content_type : CStr
  body : CStr
  body_length : Nat

/-- `RouteHandler`: mutates the response in place; modelled as returning the new response. -/
abbrev RouteHandler := HttpRequest → HttpResponse → HttpResponse

/-- `Middleware`: returns `true` to continue, `false` to stop, and may mutate the response. -/
abbrev Middleware := HttpRequest → HttpResponse → Bool × HttpResponse

/-- The C struct `Route`. -/
structure Route where
  method : HttpMethod
  path : CStr
  handler : RouteHandler

/-- The C struct `Server`: the fixed arrays plus their counts are modelled as
lists whose length is the count; slots past the count are never read. -/
structure Server where
  routes : List Route
  middleware : List Middleware

/-- `parse_method`: exact string comparison against the four known tokens. -/
def parse_method (s : CStr) : HttpMethod :=
  if s = "GET".data then .GET
  else if s = "POST".data then .POST
  else if s = "PUT".data then .PUT
  else if s = "DELETE".data then .DELETE
  else .UNSUPPORTED

/-- The whitespace class of `sscanf`'s `%s` (C `isspace`). -/
def isWsp (c : Char) : Bool :=
  c = ' ' || c = '\t' || c = '\n' || c = '\x0b' || c = '\x0c' || c = '\r'

/-- First `%s` token of `sscanf(raw, "%s %s", ...)`: skip whitespace, take the run
of non-whitespace bytes.  (The C buffer `method_str[16]` overflows on longer
tokens - undefined behaviour the model does not reproduce; every claim here
uses short tokens.) -/
def methodToken (raw : CStr) : CStr :=
  (raw.dropWhile isWsp).takeWhile (fun c => !isWsp c)

/-- Second `%s` token: the request target `full_path`. -/
def requestTarget (raw : CStr) : CStr :=
  ((((raw.dropWhile isWsp).dropWhile (fun c => !isWsp c)).dropWhile isWsp).takeWhile
    (fun c => !isWsp c))

/-- Index of the first occurrence of `needle` in `hay` (C `strstr`), if any. -/
def strstrIdx : CStr → CStr → Option Nat
  | [], needle => if needle.isPrefixOf ([] : CStr) then some 0 else none
  | c :: t, needle =>
      if needle.isPrefixOf (c :: t) then some 0
      else (strstrIdx t needle).map (· + 1)

/-- Whether `needle` occurs somewhere in `hay` (C `strstr != NULL`). -/
def occursIn (hay needle : CStr) : Bool :=
  (strstrIdx hay needle).isSome

/-- `parse_request`: extract the method token and target, split the target at the
first `?` (C `strchr`), extract the body after the first blank line, and keep
the whole raw input (truncated to the header buffer) as the headers blob.
The request starts zero-initialised (`HttpRequest req = {0}` in `main`). -/
def parse_request (raw : CStr) : HttpRequest :=
  let full_path := requestTarget raw
  let preQ := full_path.takeWhile (fun c => c != '?')
  let path := preQ.take 255
  let query := if preQ.length = full_path.length then ([] : CStr)
               else (full_path.drop (preQ.length + 1)).take 511
  let body := match strstrIdx raw "\r\n\r\n".data with
    | some i => (raw.drop (i + 4)).take 2047
    | none => ([] : CStr)
  { method := parse_method (methodToken raw)
    path := path
    query_string := query
    body := body
    body_length := body.length
    headers := raw.take 1023 }

/-- `init_response`: status 200, text/plain, empty body. -/
def init_response : HttpResponse :=
  { status_code := 200, content_type := "text/plain".data, body := [], body_length := 0 }

/-- `set_json_response`: `strncpy` truncates the body at 4095 bytes, then
`body_length = strlen(body)`, which is `min (length json) 4095`. -/
def set_json_response (res : HttpResponse) (status : Nat) (json : CStr) : HttpResponse :=
  { res with status_code := status, content_type := "application/json".data,
             body := json.take 4095, body_length := min json.length 4095 }

/-- `set_text_response`. -/
def set_text_response (res : HttpResponse) (status : Nat) (text : CStr) : HttpResponse :=
  { res with status_code := status, content_type := "text/plain".data,
             body := text.take 4095, body_length := min text.length 4095 }

/-- `set_html_response`. -/
def set_html_response (res : HttpResponse) (status : Nat) (html : CStr) : HttpResponse :=
  { res with status_code := status, content_type := "text/html".data,
             body := html.take 4095, body_length := min html.length 4095 }

/-- `get_status_text`. -/
def get_status_text (code : Nat) : CStr :=
  if code = 200 then "OK".data
  else if code = 201 then "Created".data
  else if code = 204 then "No Content".data
  else if code = 400 then "Bad Request".data
  else if code = 404 then "Not Found".data
  else if code = 405 then "Method Not Allowed".data
  else if code = 500 then "Internal Server Error".data
  else "Unknown".data

/-- `logger_middleware`: writes a log line (an external side effect outside the
model) and always continues without touching the response. -/
def logger_middleware : Middleware := fun _ res => (true, res)

/-- `cors_middleware`: always continues, response untouched. -/
def cors_middleware : Middleware := fun _ res => (true, res)

/-- `auth_middleware`: on a path whose first six bytes are `/admin`
(`strncmp(path, "/admin", 6)`) with no `Authorization:` substring in the
headers blob, write a 401 JSON body and stop; otherwise continue. -/
def auth_middleware : Middleware := fun req res =>
  if "/admin".data.isPrefixOf req.path && !occursIn req.headers "Authorization:".data then
    (false, set_json_response res 401 "\x7b\"error\": \"Unauthorized\"\x7d".data)
  else (true, res)

/-- `handle_not_found`: the fallback handler. -/
def handle_not_found : RouteHandler := fun _ res =>
  set_json_response res 404 "\x7b\"error\": \"Route not found\"\x7d".data

/-- `register_route`: appends when below `MAX_ROUTES` (50), silently drops
otherwise; the stored pattern is `strncpy`-truncated at 255 bytes. -/
def register_route (s : Server) (method : HttpMethod) (path : CStr)
    (handler : RouteHandler) : Server :=
  if s.routes.length < 50 then
    { s with routes := s.routes ++ [{ method := method, path := path.take 255,
                                      handler := handler }] }
  else s

/-- `register_middleware`: appends when below `MAX_MIDDLEWARE` (10). -/
def register_middleware (s : Server) (m : Middleware) : Server :=
  if s.middleware.length < 10 then { s with middleware := s.middleware ++ [m] }
  else s

/-- `path_matches`: exact equality, else truncate the pattern at the first
occurrence of `/:id` and test whether that pattern piece is a byte-wise
prefix of the request path (`strncmp(pattern, req_path, strlen(pattern))`). -/
def path_matches (route_path req_path : CStr) : Bool :=
  if route_path = req_path then true
  else match strstrIdx route_path "/:id".data with
    | some i => (route_path.take i).isPrefixOf req_path
    | none => false

/-- The per-route test inside `find_handler`'s loop. -/
def route_accepts (req : HttpRequest) (r : Route) : Bool :=
  decide (r.method = req.method) && path_matches r.path req.path

/-- `find_handler`: linear scan in registration order, first match wins,
`handle_not_found` when the scan falls through. -/
def find_handler (routes : List Route) (req : HttpRequest) : RouteHandler :=
  match routes with
  | [] => handle_not_found
  | r :: rest => if route_accepts req r then r.handler else find_handler rest req

/-- The middleware loop of `handle_request`: run gates in order, stop at the
first `false`, and report whether the chain ran to completion. -/
def runMiddleware : List Middleware → HttpRequest → HttpResponse → Bool × HttpResponse
  | [], _, res => (true, res)
  | m :: ms, req, res =>
      let r := m req res
      if r.1 then runMiddleware ms req r.2 else (false, r.2)

/-- `handle_request`: middleware chain first; if no gate stopped, find and run
the handler. -/
def handle_request (s : Server) (req : HttpRequest) (res : HttpResponse) : HttpResponse :=
  let r := runMiddleware s.middleware req res
  if r.1 then (find_handler s.routes req) req r.2 else r.2

/-- The middleware-registration part of `setup_routes`, in source order. -/
def setup_middleware (s : Server) : Server :=
  register_middleware
    (register_middleware (register_middleware s logger_middleware) auth_middleware)
    cors_middleware

/-- `send_response`: the bytes formatted by its `snprintf`.  Every response the
setters can produce keeps the total well under the 8192-byte output buffer, so
the `snprintf` bound never truncates and is not modelled. -/
def send_response (res : HttpResponse) : CStr :=
  "HTTP/1.1 ".data ++ Nat.toDigits 10 res.status_code ++ " ".data
    ++ get_status_text res.status_code
    ++ "\r\nContent-Type: ".data ++ res.content_type
    ++ "\r\nContent-Length: ".data ++ Nat.toDigits 10 res.body_length
    ++ "\r\nConnection: close\r\n\r\n".data ++ res.body

/-! Concrete fixtures used in counterexamples and witnesses. -/

/-- A gate that always stops the chain, leaving the response as it found it. -/
def gate_stop : Middleware := fun _ res => (false, res)

/-- A gate with an observable effect on the response that always continues. -/
def gate_mark : Middleware := fun _ res =>
  (true, { res with body := "marked".data, body_length := 6 })

/-- A minimal parsed request. -/
def req0 : HttpRequest :=
  { method := .GET, path := "/".data, query_string := [], body := [], body_length := 0,
    headers := [] }

/-- Handler writing body `A`. -/
def handlerA : RouteHandler := fun _ res => set_text_response res 200 "A".data

/-- Handler writing body `B`. -/
def handlerB : RouteHandler := fun _ res => set_text_response res 200 "B".data

/-- A parameterised route whose prefix also covers `/x/a`. -/
def route_param : Route := { method := .GET, path := "/x/:id".data, handler := handlerA }

/-- An exact literal route for `/x/a`. -/
def route_lit : Route := { method := .GET, path := "/x/a".data, handler := handlerB }

/-- A request whose path is the literal `/x/a`. -/
def req_lit : HttpRequest :=
  { method := .GET, path := "/x/a".data, query_string := [], body := [], body_length := 0,
    headers := [] }

/-- A response whose cached `body_length` disagrees with its body. -/
def stale_response : HttpResponse :=
  { status_code := 200, content_type := "text/plain".data, body := "abc".data,
    body_length := 0 }

/-- A 301-byte request target (no query part). -/
def long_target : CStr := '/' :: List.replicate 300 'a'

/-- A raw request whose target path part exceeds the 255-byte path capacity:
the bytes `GET /aaa...a?q=1 HTTP/1.1\r\n\r\n`, written in the grouping the
proofs use. -/
def long_raw : CStr :=
  "GET".data ++ ' ' :: ((long_target ++ "?q=1".data) ++ ' ' :: "HTTP/1.1\r\n\r\n".data)

/-- A request for `/admin` whose headers blob has no authorization marker. -/
def req_admin : HttpRequest :=
  { method := .GET, path := "/admin".data, query_string := [], body := [], body_length := 0,
    headers := "GET /admin HTTP/1.1\r\n\r\n".data }

/-- A do-nothing handler. -/
def dummy_handler : RouteHandler := fun _ res => res

/-- A do-nothing gate. -/
def dummy_gate : Middleware := fun _ res => (true, res)

/-- A server whose registry and chain are both exactly at capacity. -/
def full_server : Server :=
  { routes := List.replicate 50 { method := .GET, path := "/r".data, handler := dummy_handler },
    middleware := List.replicate 10 dummy_gate }

/-! Helper lemmas shared by the claim theorems. -/

/-- Running a concatenated chain runs the left part first and only reaches the
right part when the left part ran to completion. -/
theorem runMiddleware_append (a b : List Middleware) (req : HttpRequest) (res : HttpResponse) :
    runMiddleware (a ++ b) req res =
      if (runMiddleware a req res).1 then runMiddleware b req (runMiddleware a req res).2
      else runMiddleware a req res := by
  induction a generalizing res with
  | nil => simp [runMiddleware]
  | cons m ms ih =>
    simp only [List.cons_append, runMiddleware]
    by_cases h : (m req res).1
    · simp [h, ih]
    · simp [h]

/-- The scan of `find_handler` returns the handler of the first accepted route. -/
theorem find_handler_first (pre : List Route) (r : Route) (post : List Route)
    (req : HttpRequest) (hpre : ∀ r' ∈ pre, route_accepts req r' = false)
    (hr : route_accepts req r = true) :
    find_handler (pre ++ r :: post) req = r.handler := by
  induction pre with
  | nil => simp [find_handler, hr]
  | cons a t ih =>
    have ha : route_accepts req a = false := hpre a (by simp)
    simp only [List.cons_append, find_handler, ha, Bool.false_eq_true, if_false]
    exact ih fun r' h => hpre r' (by simp [h])

/-- Exact equality always matches. -/
theorem path_matches_refl (p : CStr) : path_matches p p = true := by
  simp [path_matches]

/-- If `needle` occurs at position `j` of `l`, `strstrIdx` finds an occurrence
at some position no later than `j`. -/
theorem strstrIdx_of_occurs (needle : CStr) :
    ∀ (l : CStr) (j : Nat), needle.isPrefixOf (l.drop j) = true →
    ∃ i, strstrIdx l needle = some i ∧ i ≤ j ∧ needle.isPrefixOf (l.drop i) = true := by
  intro l
  induction l with
  | nil =>
    intro j h
    refine ⟨0, ?_, Nat.zero_le j, ?_⟩
    · simp only [strstrIdx]
      rw [List.drop_nil] at h
      simp [h]
    · rw [List.drop_nil] at h
      simpa using h
  | cons c t ih =>
    intro j h
    by_cases hp : needle.isPrefixOf (c :: t) = true
    · exact ⟨0, by simp [strstrIdx, hp], Nat.zero_le j, by simpa using hp⟩
    · cases j with
      | zero =>
        rw [List.drop_zero] at h
        exact absurd h hp
      | succ j' =>
        rw [List.drop_succ_cons] at h
        obtain ⟨i, hi, hle, hocc⟩ := ih j' h
        refine ⟨i + 1, ?_, Nat.succ_le_succ hle, ?_⟩
        · simp [strstrIdx, hp, hi]
        · rw [List.drop_succ_cons]
          exact hocc

/-- A pattern ending in the placeholder matches any path extending its
literal prefix. -/
theorem path_matches_of_prefix (pre path : CStr) (h : pre <+: path) :
    path_matches (pre ++ "/:id".data) path = true := by
  unfold path_matches
  by_cases he : pre ++ "/:id".data = path
  · simp [he]
  · rw [if_neg he]
    have hocc : ("/:id".data).isPrefixOf ((pre ++ "/:id".data).drop pre.length) = true := by
      rw [List.drop_left]
      rw [ List.isPrefixOf_iff_prefix]
    obtain ⟨i, hi, hle, _⟩ :=
      strstrIdx_of_occurs "/:id".data (pre ++ "/:id".data) pre.length hocc
    rw [hi]
    have htake : (pre ++ "/:id".data).take i = pre.take i :=
      List.take_append_of_le_length hle
    show ((pre ++ "/:id".data).take i).isPrefixOf path = true
    rw [htake, List.isPrefixOf_iff_prefix]
    exact ( List.take_prefix i pre).trans h

/-- Claim C1: route lookup returns the handler of the first registered route
whose method equals the request's method and whose pattern matches the
request's path (expressed through `List.find?`, whose result is the first
list element satisfying the test); with no match it returns the fallback
handler, whose response has status 404 and the JSON route-not-found body. -/
theorem claim_C1 :
    (∀ (routes : List Route) (req : HttpRequest),
        find_handler routes req =
          match routes.find? (route_accepts req) with
          | some r => r.handler
          | none => handle_not_found)
    ∧ (∀ (req : HttpRequest) (res : HttpResponse),
        (handle_not_found req res).status_code = 404
        ∧ (handle_not_found req res).body = "\x7b\"error\": \"Route not found\"\x7d".data) := by
  constructor
  · intro routes req
    induction routes with
    | nil => rfl
    | cons r rest ih =>
      by_cases h : route_accepts req r = true
      · simp [find_handler, List.find?_cons_of_pos, h]
      · rw [List.find?_cons_of_neg rest h] at *
        simp only [find_handler, h, Bool.false_eq_true, if_false]
        exact ih
  · intro req res
    refine ⟨rfl, ?_⟩
    show ("\x7b\"error\": \"Route not found\"\x7d".data).take 4095
      = "\x7b\"error\": \"Route not found\"\x7d".data
    rfl

/-- Claim C2: gates run in registration order and the first gate returning
false ends processing: the dispatcher's result is exactly that gate's
response, whatever gates follow it and whatever routes are registered; in
particular with an always-stop gate before an effectful gate the effect is
absent, and with the order reversed it is present. -/
theorem claim_C2 :
    (∀ (ms1 : List Middleware) (g : Middleware) (ms2 : List Middleware)
        (routes : List Route) (req : HttpRequest) (res res1 res2 : HttpResponse),
        runMiddleware ms1 req res = (true, res1) → g req res1 = (false, res2) →
        handle_request ⟨routes, ms1 ++ g :: ms2⟩ req res = res2)
    ∧ (∀ (routes : List Route) (req : HttpRequest) (res : HttpResponse),
        handle_request ⟨routes, [gate_stop, gate_mark]⟩ req res = res
        ∧ handle_request ⟨routes, [gate_mark, gate_stop]⟩ req res
            = { res with body := "marked".data, body_length := 6 }) := by
  constructor
  · intro ms1 g ms2 routes req res res1 res2 h1 h2
    have hrun : runMiddleware (ms1 ++ g :: ms2) req res = (false, res2) := by
      rw [runMiddleware_append, h1]
      simp [runMiddleware, h2]
    simp [handle_request, hrun]
  · intro routes req res
    exact ⟨rfl, rfl⟩

/-- Witness for C2: with no gates before it, the always-stop gate's response
(the untouched initial response) is the dispatcher's result. -/
theorem claim_C2_witness :
    handle_request ⟨[], [gate_stop, gate_mark]⟩ req0 init_response = init_response :=
  claim_C2.1 [] gate_stop [gate_mark] [] req0 init_response init_response init_response
    rfl rfl

/-- Claim C3: exact equality always matches; a pattern ending in the `/:id`
placeholder matches every path extending the pattern's literal prefix; and
the three concrete examples from the spec behave as stated. -/
theorem claim_C3 :
    (∀ p : CStr, path_matches p p = true)
    ∧ (∀ (pre path : CStr), pre.isPrefixOf path = true →
        path_matches (pre ++ "/:id".data) path = true)
    ∧ path_matches "/api/users/:id".data "/api/users/123".data = true
    ∧ path_matches "/api/users/:id".data "/api/users/123/extra".data = true
    ∧ path_matches "/api/users/:id".data "/other".data = false := by
  refine ⟨path_matches_refl, ?_, rfl, rfl, rfl⟩
  intro pre path h
  exact path_matches_of_prefix pre path (( List.isPrefixOf_iff_prefix).mp h)

/-- Witness for C3: the placeholder part at the concrete prefix `/api`. -/
theorem claim_C3_witness :
    path_matches ("/api".data ++ "/:id".data) "/api/7".data = true :=
  claim_C3.2.1 "/api".data "/api/7".data rfl

/-- Claim C8: `body_length` equals the byte length of the body in the
response produced by init (status 200, text/plain, empty body) and after
every setter, including when the supplied content is truncated at the
4095-byte body capacity. -/
theorem claim_C8 :
    (init_response.body_length = init_response.body.length
      ∧ init_response.status_code = 200
      ∧ init_response.content_type = "text/plain".data
      ∧ init_response.body = [])
    ∧ (∀ (res : HttpResponse) (status : Nat) (s : CStr),
        (set_json_response res status s).body_length
            = (set_json_response res status s).body.length
        ∧ (set_text_response res status s).body_length
            = (set_text_response res status s).body.length
        ∧ (set_html_response res status s).body_length
            = (set_html_response res status s).body.length) := by
  refine ⟨by simp [init_response], ?_⟩
  intro res status s
  refine ⟨?_, ?_, ?_⟩ <;>
    simp [set_json_response, set_text_response, set_html_response,
      List.length_take, Nat.min_comm]

/-- Claim C9: the placeholder match imposes no segment boundary: a pattern
ending in `/:id` accepts every path whose leading bytes are the pattern's
literal prefix, including the bare prefix itself and non-segment
continuations. -/
theorem claim_C9 :
    (∀ (pre rest : CStr), path_matches (pre ++ "/:id".data) (pre ++ rest) = true)
    ∧ path_matches "/api/users/:id".data "/api/users".data = true
    ∧ path_matches "/api/users/:id".data "/api/usersXYZ".data = true := by
  refine ⟨?_, rfl, rfl⟩
  intro pre rest
  exact path_matches_of_prefix pre (pre ++ rest) (List.prefix_append pre rest)

/-- Claim C10: registering a route on a registry already holding 50 routes,
or a gate on a chain already holding 10 gates, leaves the server
completely unchanged. -/
theorem claim_C10 :
    (∀ (s : Server) (m : HttpMethod) (p : CStr) (h : RouteHandler),
        s.routes.length = 50 → register_route s m p h = s)
    ∧ (∀ (s : Server) (g : Middleware),
        s.middleware.length = 10 → register_middleware s g = s) := by
  constructor
  · intro s m p h hlen
    simp [register_route, hlen]
  · intro s g hlen
    simp [register_middleware, hlen]

/-- Witness for C10: a server at both capacity bounds absorbs further
registrations without change. -/
theorem claim_C10_witness :
    register_route full_server .GET "/extra".data dummy_handler = full_server
    ∧ register_middleware full_server dummy_gate = full_server :=
  ⟨claim_C10.1 full_server .GET "/extra".data dummy_handler (by simp [full_server]),
   claim_C10.2 full_server dummy_gate (by simp [full_server])⟩

/-- The path field of a parsed request, in terms of the extracted target. -/
theorem parse_request_path (raw : CStr) :
    (parse_request raw).path
      = ((requestTarget raw).takeWhile (fun c => c != '?')).take 255 := rfl

/-- The query field of a parsed request, in terms of the extracted target. -/
theorem parse_request_query (raw : CStr) :
    (parse_request raw).query_string =
      if ((requestTarget raw).takeWhile (fun c => c != '?')).length
          = (requestTarget raw).length then ([] : CStr)
      else ((requestTarget raw).drop
          (((requestTarget raw).takeWhile (fun c => c != '?')).length + 1)).take 511 := rfl

/-- Scanning up to the first `?` recovers exactly the part before it. -/
theorem takeWhile_stop_append (pre post : CStr) (h : ('?' : Char) ∉ pre) :
    (pre ++ '?' :: post).takeWhile (fun c => c != '?') = pre := by
  induction pre with
  | nil => simp [List.takeWhile_cons]
  | cons a t ih =>
    have ha : a ≠ '?' := fun e => h (by simp [e])
    have ht : ('?' : Char) ∉ t := fun hm => h (List.mem_cons_of_mem a hm)
    simp only [List.cons_append, List.takeWhile_cons]
    simp [ha, ih ht]

/-- Dropping the part before a marked element and the element itself leaves
the part after it. -/
theorem drop_succ_append (pre post : CStr) (c : Char) :
    (pre ++ c :: post).drop (pre.length + 1) = post := by
  induction pre with
  | nil => simp
  | cons a t ih =>
    simp only [List.cons_append, List.length_cons]
    rw [List.drop_succ_cons]
    exact ih

/-- `takeWhile` passes over a leading block whose elements all satisfy the test. -/
theorem takeWhile_append_all (p : Char → Bool) (A B : CStr) (h : ∀ x ∈ A, p x = true) :
    (A ++ B).takeWhile p = A ++ B.takeWhile p := by
  induction A with
  | nil => simp
  | cons a t ih =>
    have ha := h a (by simp)
    have ht : ∀ x ∈ t, p x = true := fun x hx => h x (by simp [hx])
    simp [List.takeWhile_cons, ha, ih ht]

/-- `dropWhile` consumes a leading block whose elements all satisfy the test. -/
theorem dropWhile_append_all (p : Char → Bool) (A B : CStr) (h : ∀ x ∈ A, p x = true) :
    (A ++ B).dropWhile p = B.dropWhile p := by
  induction A with
  | nil => simp
  | cons a t ih =>
    have ha := h a (by simp)
    have ht : ∀ x ∈ t, p x = true := fun x hx => h x (by simp [hx])
    simp [List.dropWhile_cons, ha, ih ht]

/-- The target token of a raw request of the shape
`<method> SP <target> <ws> <rest>` where the method and target are nonempty
and whitespace-free. -/
theorem requestTarget_shape (m t u : CStr) (sp : Char)
    (hm : ∀ x ∈ m, isWsp x = false) (hmne : m ≠ [])
    (ht : ∀ x ∈ t, isWsp x = false) (htne : t ≠ [])
    (hsp : isWsp sp = true) :
    requestTarget (m ++ ' ' :: (t ++ sp :: u)) = t := by
  obtain ⟨a, m', rfl⟩ : ∃ a m', m = a :: m' := by
    cases m with
    | nil => exact absurd rfl hmne
    | cons a m' => exact ⟨a, m', rfl⟩
  obtain ⟨b, t', rfl⟩ : ∃ b t', t = b :: t' := by
    cases t with
    | nil => exact absurd rfl htne
    | cons b t' => exact ⟨b, t', rfl⟩
  have ha := hm a (by simp)
  have hmall : ∀ x ∈ (a :: m'), (fun c => !isWsp c) x = true := by
    intro x hx
    simp [hm x hx]
  have hb := ht b (by simp)
  have htall : ∀ x ∈ (b :: t'), (fun c => !isWsp c) x = true := by
    intro x hx
    simp [ht x hx]
  have hspace : isWsp ' ' = true := rfl
  have h1 : ((a :: m') ++ ' ' :: ((b :: t') ++ sp :: u)).dropWhile isWsp
      = (a :: m') ++ ' ' :: ((b :: t') ++ sp :: u) := by
    simp [List.dropWhile_cons, ha]
  have h2 : ((a :: m') ++ ' ' :: ((b :: t') ++ sp :: u)).dropWhile (fun c => !isWsp c)
      = ' ' :: ((b :: t') ++ sp :: u) := by
    rw [dropWhile_append_all _ _ _ hmall]
    simp [List.dropWhile_cons, hspace]
  have h3 : (' ' :: ((b :: t') ++ sp :: u)).dropWhile isWsp = (b :: t') ++ sp :: u := by
    simp [List.dropWhile_cons, hspace, hb]
  have h4 : ((b :: t') ++ sp :: u).takeWhile (fun c => !isWsp c) = b :: t' := by
    rw [takeWhile_append_all _ _ _ htall]
    simp [List.takeWhile_cons, hsp]
  unfold requestTarget
  rw [h1, h2, h3, h4]

/-- Every byte of the long target is `/` or `a`. -/
theorem long_target_chars (x : Char) (hx : x ∈ long_target) : x = '/' ∨ x = 'a' := by
  simp only [long_target, List.mem_cons] at hx
  rcases hx with h | h
  · exact Or.inl h
  · exact Or.inr (List.eq_of_mem_replicate h)

/-- Counterexample to C4 as stated: for status 201 and the eight-byte body the
serialized bytes carry `Content-Length: 8`, not 9; and the header value is
the cached `body_length` field, not a recomputation - a response whose body
is three bytes but whose cached field is 0 serializes with
`Content-Length: 0`. -/
theorem claim_C4_cex :
    send_response (set_json_response init_response 201 "\x7b\"id\":4\x7d".data)
      = ("HTTP/1.1 201 Created\r\nContent-Type: application/json\r\n"
          ++ "Content-Length: 8\r\nConnection: close\r\n\r\n\x7b\"id\":4\x7d").data
    ∧ stale_response.body.length = 3
    ∧ send_response stale_response
      = ("HTTP/1.1 200 OK\r\nContent-Type: text/plain\r\n"
          ++ "Content-Length: 0\r\nConnection: close\r\n\r\nabc").data :=
  ⟨rfl, rfl, rfl⟩

/-- Claim C4 (amended): the serialized bytes carry a Content-Length equal to
the response's cached `body_length` field, which equals the exact byte length
of the body whenever the response was produced through the setters; for
status 201 and body of eight bytes the status line reads `HTTP/1.1 201
Created` and Content-Length is 8. -/
theorem claim_C4_amended :
    (∀ res : HttpResponse, res.body_length = res.body.length →
        ∃ front : CStr,
          send_response res = front ++ "\r\nContent-Length: ".data
            ++ Nat.toDigits 10 res.body.length
            ++ "\r\nConnection: close\r\n\r\n".data ++ res.body)
    ∧ send_response (set_json_response init_response 201 "\x7b\"id\":4\x7d".data) =
        ("HTTP/1.1 201 Created\r\nContent-Type: application/json\r\n"
          ++ "Content-Length: 8\r\nConnection: close\r\n\r\n\x7b\"id\":4\x7d").data := by
  constructor
  · intro res h
    refine ⟨"HTTP/1.1 ".data ++ Nat.toDigits 10 res.status_code ++ " ".data
      ++ get_status_text res.status_code ++ "\r\nContent-Type: ".data
      ++ res.content_type, ?_⟩
    rw [← h]
    simp [send_response, List.append_assoc]
  · rfl

/-- Witness for C4 (amended): the setter-produced 201 response satisfies the
invariant hypothesis and the serialization shape. -/
theorem claim_C4_amended_witness :
    ∃ front : CStr,
      send_response (set_json_response init_response 201 "\x7b\"id\":4\x7d".data)
        = front ++ "\r\nContent-Length: ".data
          ++ Nat.toDigits 10
              (set_json_response init_response 201 "\x7b\"id\":4\x7d".data).body.length
          ++ "\r\nConnection: close\r\n\r\n".data
          ++ (set_json_response init_response 201 "\x7b\"id\":4\x7d".data).body :=
  claim_C4_amended.1 (set_json_response init_response 201 "\x7b\"id\":4\x7d".data) rfl

/-- Counterexample to C5 as stated: with a parameterized route registered
before the exact literal route, the dispatcher returns the parameterized
handler's response, not the literal route's handler's response. -/
theorem claim_C5_cex :
    route_lit.method = req_lit.method
    ∧ route_lit.path = req_lit.path
    ∧ handle_request ⟨[route_param, route_lit], []⟩ req_lit init_response
        ≠ route_lit.handler req_lit init_response
    ∧ (handle_request ⟨[route_param, route_lit], []⟩ req_lit init_response).body = "A".data
    ∧ (route_lit.handler req_lit init_response).body = "B".data := by
  refine ⟨rfl, rfl, ?_, rfl, rfl⟩
  intro h
  have hb := congrArg HttpResponse.body h
  rw [show (handle_request ⟨[route_param, route_lit], []⟩ req_lit init_response).body
        = "A".data from rfl,
      show (route_lit.handler req_lit init_response).body = "B".data from rfl] at hb
  exact absurd hb (by decide)

/-- Claim C5 (amended): when the exact literal route is the first route in
registration order that accepts the request (no earlier route of the same
method matches the path, exactly or through the placeholder prefix), and the
middleware chain runs to completion, the dispatcher returns exactly that
handler's response. -/
theorem claim_C5_amended :
    ∀ (s : Server) (req : HttpRequest) (res : HttpResponse)
      (pre : List Route) (r : Route) (post : List Route),
      s.routes = pre ++ r :: post →
      (∀ r' ∈ pre, route_accepts req r' = false) →
      r.method = req.method → r.path = req.path →
      (runMiddleware s.middleware req res).1 = true →
      handle_request s req res = r.handler req (runMiddleware s.middleware req res).2 := by
  intro s req res pre r post hs hpre hm hp hchain
  have hacc : route_accepts req r = true := by
    simp [route_accepts, hm, hp, path_matches_refl]
  have hfind : find_handler s.routes req = r.handler := by
    rw [hs]
    exact find_handler_first pre r post req hpre hacc
  simp [handle_request, hfind, hchain]

/-- Witness for C5 (amended): a single literal route with an empty chain. -/
theorem claim_C5_amended_witness :
    handle_request ⟨[route_lit], []⟩ req_lit init_response
      = route_lit.handler req_lit
          (runMiddleware ([] : List Middleware) req_lit init_response).2 :=
  claim_C5_amended ⟨[route_lit], []⟩ req_lit init_response [] route_lit [] rfl
    (fun r' h => absurd h (List.not_mem_nil r')) rfl rfl rfl

/-- Counterexample to C6 as stated: a target whose part before the `?` is 301
bytes long parses to a 255-byte path - the path field is the truncation of
the substring before the `?`, not that substring itself. -/
theorem claim_C6_cex :
    requestTarget long_raw = long_target ++ '?' :: "q=1".data
    ∧ (parse_request long_raw).path ≠ long_target
    ∧ (parse_request long_raw).path.length = 255
    ∧ long_target.length = 301 := by
  have hqmark : ('?' : Char) ∉ long_target := by
    intro hmem
    rcases long_target_chars '?' hmem with h | h <;> exact absurd h (by decide)
  have htall : ∀ x ∈ long_target ++ "?q=1".data, isWsp x = false := by
    intro x hx
    rcases List.mem_append.mp hx with h | h
    · rcases long_target_chars x h with h' | h' <;> rw [h'] <;> rfl
    · have hq : ∀ y ∈ "?q=1".data, isWsp y = false := by decide
      exact hq x h
  have htgt : requestTarget long_raw = long_target ++ "?q=1".data := by
    show requestTarget ("GET".data ++ ' '
        :: ((long_target ++ "?q=1".data) ++ ' ' :: "HTTP/1.1\r\n\r\n".data))
      = long_target ++ "?q=1".data
    exact requestTarget_shape "GET".data (long_target ++ "?q=1".data)
      "HTTP/1.1\r\n\r\n".data ' ' (by decide) (by decide) htall
      (by simp [long_target]) rfl
  have htw : (long_target ++ "?q=1".data).takeWhile (fun c => c != '?') = long_target := by
    show (long_target ++ '?' :: "q=1".data).takeWhile (fun c => c != '?') = long_target
    exact takeWhile_stop_append long_target "q=1".data hqmark
  have hlt : long_target.length = 301 := by
    simp [long_target]
  have hpathlen : (parse_request long_raw).path.length = 255 := by
    rw [parse_request_path, htgt, htw, List.length_take, hlt]
    decide
  refine ⟨htgt, ?_, hpathlen, hlt⟩
  intro h
  have hc := congrArg List.length h
  rw [hpathlen, hlt] at hc
  exact absurd hc (by decide)

/-- Claim C6 (amended): the target is split at its first `?`; the path field
is the substring before it truncated to the 255-byte path capacity and the
query field is the substring after it truncated to the 511-byte query
capacity; without a `?` the query is empty; and the path field never
contains a `?`. -/
theorem claim_C6_amended :
    (∀ (raw preQ postQ : CStr),
        requestTarget raw = preQ ++ '?' :: postQ → ('?' : Char) ∉ preQ →
        (parse_request raw).path = preQ.take 255
        ∧ (parse_request raw).query_string = postQ.take 511)
    ∧ (∀ raw : CStr, ('?' : Char) ∉ requestTarget raw →
        (parse_request raw).path = (requestTarget raw).take 255
        ∧ (parse_request raw).query_string = [])
    ∧ (∀ raw : CStr, ('?' : Char) ∉ (parse_request raw).path)
    ∧ (parse_request "GET /api/hello?name=Ada HTTP/1.1\r\nHost: a\r\n\r\n".data).path
        = "/api/hello".data
    ∧ (parse_request "GET /api/hello?name=Ada HTTP/1.1\r\nHost: a\r\n\r\n".data).query_string
        = "name=Ada".data
    ∧ (parse_request "GET /api/hello HTTP/1.1\r\nHost: a\r\n\r\n".data).query_string = [] := by
  refine ⟨?_, ?_, ?_, rfl, rfl, rfl⟩
  · intro raw preQ postQ hsplit hmem
    have htw : (requestTarget raw).takeWhile (fun c => c != '?') = preQ := by
      rw [hsplit]
      exact takeWhile_stop_append preQ postQ hmem
    constructor
    · rw [parse_request_path, htw]
    · rw [parse_request_query, htw, hsplit]
      rw [if_neg (by simp)]
      rw [drop_succ_append]
  · intro raw h
    have htw : (requestTarget raw).takeWhile (fun c => c != '?') = requestTarget raw := by
      rw [List.takeWhile_eq_self_iff]
      intro a ha
      have : a ≠ '?' := fun e => h (e ▸ ha)
      simp [this]
    exact ⟨by rw [parse_request_path, htw], by rw [parse_request_query, htw, if_pos rfl]⟩
  · intro raw hmem
    rw [parse_request_path] at hmem
    have h1 : ('?' : Char) ∈ (requestTarget raw).takeWhile (fun c => c != '?') :=
      List.take_subset 255 _ hmem
    have h2 := List.mem_takeWhile_imp h1
    simp at h2

/-- Witness for C6 (amended): the split of `GET /a?b HTTP/1.1`. -/
theorem claim_C6_witness :
    (parse_request "GET /a?b HTTP/1.1".data).path = ("/a".data).take 255
    ∧ (parse_request "GET /a?b HTTP/1.1".data).query_string = ("b".data).take 511 :=
  claim_C6_amended.1 "GET /a?b HTTP/1.1".data "/a".data "b".data rfl (by decide)

/-- Claim C7: the middleware chain as registered by `setup_routes` starts with
the logger and auth gates; for every request whose path starts with `/admin`
and whose headers blob lacks the authorization marker, the dispatcher
returns status 401 with the unauthorized JSON body, whatever gates follow
the auth gate and whatever routes are registered - so no later gate and no
handler influences the response. -/
theorem claim_C7 :
    (∀ s : Server, s.middleware = [] →
        (setup_middleware s).middleware
          = [logger_middleware, auth_middleware, cors_middleware])
    ∧ (∀ (routes : List Route) (later : List Middleware) (req : HttpRequest)
        (res : HttpResponse),
        "/admin".data.isPrefixOf req.path = true →
        occursIn req.headers "Authorization:".data = false →
        (handle_request ⟨routes, logger_middleware :: auth_middleware :: later⟩
            req res).status_code = 401
        ∧ (handle_request ⟨routes, logger_middleware :: auth_middleware :: later⟩
            req res).body = "\x7b\"error\": \"Unauthorized\"\x7d".data) := by
  constructor
  · intro s h
    obtain ⟨rs, ms⟩ := s
    simp only at h
    subst h
    rfl
  · intro routes later req res h1 h2
    have hauth : auth_middleware req res
        = (false, set_json_response res 401 "\x7b\"error\": \"Unauthorized\"\x7d".data) := by
      simp [auth_middleware, h1, h2]
    have hrun : runMiddleware (logger_middleware :: auth_middleware :: later) req res
        = (false, set_json_response res 401 "\x7b\"error\": \"Unauthorized\"\x7d".data) := by
      simp [runMiddleware, logger_middleware, hauth]
    refine ⟨?_, ?_⟩
    · simp [handle_request, hrun, set_json_response]
    · simp only [handle_request, hrun]
      show ("\x7b\"error\": \"Unauthorized\"\x7d".data).take 4095
        = "\x7b\"error\": \"Unauthorized\"\x7d".data
      rfl

/-- Witness for C7: the concrete `/admin` request without the marker, with
the registered chain and no routes. -/
theorem claim_C7_witness :
    (setup_middleware ⟨[], []⟩).middleware
        = [logger_middleware, auth_middleware, cors_middleware]
    ∧ (handle_request ⟨[], [logger_middleware, auth_middleware, cors_middleware]⟩
        req_admin init_response).status_code = 401
    ∧ (handle_request ⟨[], [logger_middleware, auth_middleware, cors_middleware]⟩
        req_admin init_response).body = "\x7b\"error\": \"Unauthorized\"\x7d".data :=
  ⟨claim_C7.1 ⟨[], []⟩ rfl,
   (claim_C7.2 [] [cors_middleware] req_admin init_response rfl rfl).1,
   (claim_C7.2 [] [cors_middleware] req_admin init_response rfl rfl).2⟩

end CWeb
